import Mathlib

/-!
# Verification of the Relay type-node layer (src/relay/ir/type.cc)

A shallow embedding of the type-system AST nodes and their constructors,
size computation, and debug-printer dispatch, translated from
`src/relay/ir/type.cc`.  Node classes become Lean structures or variants of
a mutual inductive family; the C++ `make` factory functions become Lean
functions of the same name; the `IRPrinter` dispatch table becomes a total
function on the variant family.

Object identity (the address produced by `make_object`) matters for type
variables and incomplete-type placeholders, so allocation is made explicit:
identity-bearing constructors take a fresh-id counter and return the node
together with the advanced counter.
-/

/-- Kind enumeration classifying what a type variable may range over.
Modelled from the spec: the `Kind` enum lives in the header
`tvm/relay/type.h`, which is outside the translated source; the spec lists
the members Type, ShapeVar, BaseType, Constraint among a fixed set. -/
inductive Kind where
  | kType
  | kShapeVar
  | kBaseType
  | kShape
  | kConstraint
  | kAdtHandle
deriving DecidableEq, Repr

/-- Scalar data type descriptor (type code, bit width, vector lanes).
Modelled from the spec: `DataType` is supplied by the surrounding runtime,
outside the translated source; only its role as an element-type tag is
needed here. -/
structure DataType where
  code : Nat
  bits : Nat
  lanes : Nat
deriving DecidableEq, Repr

/-- The signed integer type code. -/
def DataType.Int (bits : Nat) : DataType := ⟨0, bits, 1⟩

/-- The floating point type code. -/
def DataType.Float (bits : Nat) : DataType := ⟨2, bits, 1⟩

/-- The boolean data type (uint1). -/
def DataType.Bool : DataType := ⟨1, 1, 1⟩

/-- Symbolic integer index expression used as one tensor shape dimension.
Modelled from the spec: shape expressions are supplied by an external
arithmetic component; a dimension is a constant, a symbolic variable, a
structural multiplication node, or the wildcard `Any`. -/
inductive IndexExpr where
  | IntImm (dtype : DataType) (value : Int)
  | SymVar (name : String)
  | Mul (a b : IndexExpr)
  | AnyDim
deriving DecidableEq, Repr

/-- Modelled from the spec: `make_const(dtype, v)` of the external arithmetic
component builds the integer literal constant `v` of type `dtype`. -/
def make_const (dtype : DataType) (value : Int) : IndexExpr :=
  IndexExpr.IntImm dtype value

/-- Tensor type node: ordered shape dimensions plus an element data type.
Translated from `TensorTypeNode` in `src/relay/ir/type.cc`. -/
structure TensorTypeNode where
  shape : List IndexExpr
  dtype : DataType
deriving DecidableEq, Repr

/-- `TensorTypeNode::make`: stores the supplied shape and dtype. -/
def TensorTypeNode.make (shape : List IndexExpr) (dtype : DataType) : TensorTypeNode :=
  { shape := shape, dtype := dtype }

/-- `TensorTypeNode::Scalar`: a scalar is a tensor type with empty shape. -/
def TensorTypeNode.Scalar (dtype : DataType) : TensorTypeNode :=
  TensorTypeNode.make [] dtype

/-- The loop `for (i = 1; i < shape.size(); ++i) size *= shape[i]` of
`TensorTypeNode::Size`, with `size *= d` modelled from the spec as building
the structural multiplication node (the external arithmetic component's
`operator*`). -/
def sizeLoop (acc : IndexExpr) : List IndexExpr → IndexExpr
  | [] => acc
  | d :: rest => sizeLoop (IndexExpr.Mul acc d) rest

/-- `TensorTypeNode::Size`: the literal 1 of Int(64) for an empty shape,
otherwise the left-to-right product of the dimensions starting from
`shape[0]`. -/
def TensorTypeNode.Size (t : TensorTypeNode) : IndexExpr :=
  match t.shape with
  | [] => make_const (DataType.Int 64) 1
  | d0 :: rest => sizeLoop d0 rest

/-- Lexical type variable node: allocation identity, diagnostic name hint
(the `name_hint` of the `tvm::Var` built by `TypeVarNode::make`), and Kind. -/
structure TypeVarNode where
  id : Nat
  name : String
  kind : Kind
deriving DecidableEq, Repr

/-- `TypeVarNode::make`: allocates a fresh node (fresh identity) holding a
variable with the given name hint and the given kind. -/
def TypeVarNode.make (name : String) (kind : Kind) (alloc : Nat) : TypeVarNode × Nat :=
  ({ id := alloc, name := name, kind := kind }, alloc + 1)

/-- Global type variable node: same fields and identity discipline as the
lexical variable, intended for cross-module reference. -/
structure GlobalTypeVarNode where
  id : Nat
  name : String
  kind : Kind
deriving DecidableEq, Repr

/-- `GlobalTypeVarNode::make`: allocates a fresh node holding the name hint
and kind. -/
def GlobalTypeVarNode.make (name : String) (kind : Kind) (alloc : Nat) :
    GlobalTypeVarNode × Nat :=
  ({ id := alloc, name := name, kind := kind }, alloc + 1)

/-- Incomplete type (unification placeholder) node: allocation identity and
Kind only. -/
structure IncompleteTypeNode where
  id : Nat
  kind : Kind
deriving DecidableEq, Repr

/-- `IncompleteTypeNode::make`: allocates a fresh placeholder of the given
kind. -/
def IncompleteTypeNode.make (kind : Kind) (alloc : Nat) : IncompleteTypeNode × Nat :=
  ({ id := alloc, kind := kind }, alloc + 1)

/-- Reference to an external type-relation resolver function; the printer
uses its `name` field. Modelled from the spec: the resolver itself is
out-of-scope solver machinery, so only the name carried for diagnostics is
represented. -/
structure TypeRelationFn where
  name : String
deriving DecidableEq, Repr

/-- Opaque attribute bag attached to a type relation. Modelled from the
spec: the bag is opaque at this layer, so it is represented by an abstract
token compared only for being passed through unchanged. -/
structure Attrs where
  raw : Nat
deriving DecidableEq, Repr

mutual
/-- The sealed type-variant family of `src/relay/ir/type.cc`: Tensor,
TypeVar, GlobalTypeVar, TypeCall, IncompleteType, FuncType, TupleType,
RefType.  Children that the C++ constructors accept as possibly-null
handles (`TypeCallNode::func`, `RefTypeNode::value`) are `TypeOpt`. -/
inductive TypeT where
  | tensor (node : TensorTypeNode)
  | typeVar (node : TypeVarNode)
  | globalTypeVar (node : GlobalTypeVarNode)
  | typeCall (func : TypeOpt) (args : TypeList)
  | incomplete (node : IncompleteTypeNode)
  | func (arg_types : TypeList) (ret_type : TypeT) (type_params : List TypeVarNode)
      (type_constraints : TRList)
  | tuple (fields : TypeList)
  | refType (value : TypeOpt)
/-- A possibly-null `Type` handle, as accepted by the C++ constructors. -/
inductive TypeOpt where
  | null
  | some (t : TypeT)
/-- An ordered `Array<Type>` of type nodes. -/
inductive TypeList where
  | nil
  | cons (head : TypeT) (tail : TypeList)
/-- Type relation node: resolver reference, ordered type arguments, the
count of leading input arguments, and the attribute bag.  Translated from
`TypeRelationNode` in `src/relay/ir/type.cc`. -/
inductive TypeRelationT where
  | mk (func : TypeRelationFn) (args : TypeList) (num_inputs : Int) (attrs : Attrs)
/-- An ordered `Array<TypeConstraint>`; the relation is its only variant. -/
inductive TRList where
  | nil
  | cons (head : TypeRelationT) (tail : TRList)
end

/-- Number of elements of a `TypeList` (the C++ `args.size()`). -/
def TypeList.length : TypeList → Nat
  | .nil => 0
  | .cons _ t => t.length + 1

/-- The stored resolver reference of a relation node. -/
def TypeRelationT.func : TypeRelationT → TypeRelationFn
  | .mk f _ _ _ => f

/-- The stored argument list of a relation node. -/
def TypeRelationT.args : TypeRelationT → TypeList
  | .mk _ a _ _ => a

/-- The stored input count of a relation node. -/
def TypeRelationT.num_inputs : TypeRelationT → Int
  | .mk _ _ n _ => n

/-- The stored attribute bag of a relation node. -/
def TypeRelationT.attrs : TypeRelationT → Attrs
  | .mk _ _ _ a => a

/-- `TypeCallNode::make`: stores the constructor reference and the argument
list; performs no validation. -/
def TypeCallNode.make (func : TypeOpt) (args : TypeList) : TypeT :=
  TypeT.typeCall func args

/-- `FuncTypeNode::make`: stores argument types, return type, type
parameters and type constraints; performs no validation. -/
def FuncTypeNode.make (arg_types : TypeList) (ret_type : TypeT)
    (type_params : List TypeVarNode) (type_constraints : TRList) : TypeT :=
  TypeT.func arg_types ret_type type_params type_constraints

/-- `TupleTypeNode::make`: stores the field list. -/
def TupleTypeNode.make (fields : TypeList) : TypeT :=
  TypeT.tuple fields

/-- `RefTypeNode::make`: stores the supplied value handle; performs no
validation. -/
def RefTypeNode.make (value : TypeOpt) : TypeT :=
  TypeT.refType value

/-- `TypeRelationNode::make`: stores the resolver, the argument list, the
input count and the attribute bag exactly as supplied; performs no
validation. -/
def TypeRelationNode.make (func : TypeRelationFn) (args : TypeList)
    (num_inputs : Int) (attrs : Attrs) : TypeRelationT :=
  TypeRelationT.mk func args num_inputs attrs

/-- Rendering of a data type, modelled from the spec's printed examples
("int32", "float32", "bool"). -/
def printDataType (d : DataType) : String :=
  if d = DataType.Bool then "bool"
  else
    (match d.code with
      | 0 => "int"
      | 1 => "uint"
      | 2 => "float"
      | _ => "custom")
      ++ toString d.bits
      ++ (if d.lanes = 1 then "" else "x" ++ toString d.lanes)

/-- Rendering of one shape dimension, modelled from the spec: constants
print as their value, the wildcard as a marker, multiplication
structurally. -/
def printIndexExpr : IndexExpr → String
  | .IntImm _ v => toString v
  | .SymVar s => s
  | .Mul a b => "(" ++ printIndexExpr a ++ "*" ++ printIndexExpr b ++ ")"
  | .AnyDim => "?"

/-- Comma-separated join, modelled from the spec's list rendering
("printed shape is [2, 3]"). -/
def joinStr : List String → String
  | [] => ""
  | [s] => s
  | s :: rest => s ++ ", " ++ joinStr rest

/-- Rendering of an `Array<IndexExpr>` shape, modelled from the spec:
elements comma-separated inside square brackets. -/
def printShape (shape : List IndexExpr) : String :=
  "[" ++ joinStr (shape.map printIndexExpr) ++ "]"

/-- Rendering of a Kind, modelled from the spec: the member name
(Type, ShapeVar, BaseType, ...). -/
def printKind : Kind → String
  | .kType => "Type"
  | .kShapeVar => "ShapeVar"
  | .kBaseType => "BaseType"
  | .kShape => "Shape"
  | .kConstraint => "Constraint"
  | .kAdtHandle => "AdtHandle"

/-- The `TypeVarNode` printer dispatch: name hint and kind only (no
identity). -/
def printTypeVarNode (n : TypeVarNode) : String :=
  "TypeVarNode(" ++ n.name ++ ", " ++ printKind n.kind ++ ")"

/-- Rendering of an `Array<TypeVar>` of type parameters. -/
def printTypeVarList (l : List TypeVarNode) : String :=
  "[" ++ joinStr (l.map printTypeVarNode) ++ "]"

mutual
/-- The debug-printer registry of `src/relay/ir/type.cc` as one total
function dispatched on the variant tag.  Each branch reproduces the
corresponding `set_dispatch` lambda's stream output; for the incomplete
type the dispatch prints `node` itself, i.e. the node's identity, rendered
here as the decimal allocation id. -/
def printType : TypeT → String
  | .tensor n => "TensorType(" ++ printShape n.shape ++ ", " ++ printDataType n.dtype ++ ")"
  | .typeVar n => printTypeVarNode n
  | .globalTypeVar n =>
      "GlobalTypeVarNode(" ++ n.name ++ ", " ++ printKind n.kind ++ ")"
  | .typeCall f args =>
      "TypeCallNode(" ++ printTypeOpt f ++ ", [" ++ printTypeListInner args ++ "])"
  | .incomplete n =>
      "IncompleteTypeNode(" ++ printKind n.kind ++ ", " ++ toString n.id ++ ")"
  | .func arg_types ret_type type_params type_constraints =>
      "FuncTypeNode(" ++ printTypeVarList type_params ++ ", ["
        ++ printTypeListInner arg_types ++ "], " ++ printType ret_type ++ ", ["
        ++ printTRListInner type_constraints ++ "])"
  | .tuple fields => "TupleTypeNode([" ++ printTypeListInner fields ++ "])"
  | .refType v => "RefTypeNode(" ++ printTypeOpt v ++ ")"
termination_by structural t => t
/-- Rendering of a possibly-null handle. -/
def printTypeOpt : TypeOpt → String
  | .null => "(nullptr)"
  | .some t => printType t
termination_by structural t => t
/-- Comma-separated rendering of the elements of a `TypeList`. -/
def printTypeListInner : TypeList → String
  | .nil => ""
  | .cons h .nil => printType h
  | .cons h (.cons h2 t) =>
      printType h ++ ", " ++ printTypeListInner (TypeList.cons h2 t)
termination_by structural l => l
/-- The `TypeRelationNode` printer dispatch: resolver name and argument
list. -/
def printTypeRelation : TypeRelationT → String
  | .mk f args _ _ => "TypeRelationNode(" ++ f.name ++ ", [" ++ printTypeListInner args ++ "])"
termination_by structural rel => rel
/-- Comma-separated rendering of the elements of a `TRList`. -/
def printTRListInner : TRList → String
  | .nil => ""
  | .cons h .nil => printTypeRelation h
  | .cons h (.cons h2 t) =>
      printTypeRelation h ++ ", " ++ printTRListInner (TRList.cons h2 t)
termination_by structural l => l
end

mutual
/-- Modelled from the spec: resolution of variables is an external
substitution keyed by identity.  `substVar i r` replaces every occurrence
of the lexical type variable whose identity is `i` by `r`, leaving
everything else (in particular variables of other identities) unchanged. -/
def substVar (i : Nat) (r : TypeT) : TypeT → TypeT
  | .tensor n => .tensor n
  | .typeVar n => if n.id = i then r else .typeVar n
  | .globalTypeVar n => .globalTypeVar n
  | .typeCall f args => .typeCall (substVarOpt i r f) (substVarList i r args)
  | .incomplete n => .incomplete n
  | .func arg_types ret_type type_params type_constraints =>
      .func (substVarList i r arg_types) (substVar i r ret_type) type_params
        (substVarTRList i r type_constraints)
  | .tuple fields => .tuple (substVarList i r fields)
  | .refType v => .refType (substVarOpt i r v)
termination_by structural t => t
def substVarOpt (i : Nat) (r : TypeT) : TypeOpt → TypeOpt
  | .null => .null
  | .some t => .some (substVar i r t)
termination_by structural t => t
def substVarList (i : Nat) (r : TypeT) : TypeList → TypeList
  | .nil => .nil
  | .cons h t => .cons (substVar i r h) (substVarList i r t)
termination_by structural l => l
def substVarRel (i : Nat) (r : TypeT) : TypeRelationT → TypeRelationT
  | .mk f args n a => .mk f (substVarList i r args) n a
termination_by structural rel => rel
def substVarTRList (i : Nat) (r : TypeT) : TRList → TRList
  | .nil => .nil
  | .cons h t => .cons (substVarRel i r h) (substVarTRList i r t)
termination_by structural l => l
end

/-- Erase the allocation identity of one variable node. -/
def zeroVarNode (v : TypeVarNode) : TypeVarNode :=
  { id := 0, name := v.name, kind := v.kind }

/-- Erase the allocation identity of one global variable node. -/
def zeroGlobalVarNode (v : GlobalTypeVarNode) : GlobalTypeVarNode :=
  { id := 0, name := v.name, kind := v.kind }

mutual
/-- Canonicalize the identities of all lexical and global type variables in
a type to 0, keeping every other field — including the identities of
incomplete-type placeholders — unchanged.  Two types are "equal in contents
apart from variable identity" exactly when their images under this map are
equal. -/
def zeroVarIds : TypeT → TypeT
  | .tensor n => .tensor n
  | .typeVar n => .typeVar (zeroVarNode n)
  | .globalTypeVar n => .globalTypeVar (zeroGlobalVarNode n)
  | .typeCall f args => .typeCall (zeroVarIdsOpt f) (zeroVarIdsList args)
  | .incomplete n => .incomplete n
  | .func arg_types ret_type type_params type_constraints =>
      .func (zeroVarIdsList arg_types) (zeroVarIds ret_type)
        (type_params.map zeroVarNode) (zeroVarIdsTRList type_constraints)
  | .tuple fields => .tuple (zeroVarIdsList fields)
  | .refType v => .refType (zeroVarIdsOpt v)
termination_by structural t => t
def zeroVarIdsOpt : TypeOpt → TypeOpt
  | .null => .null
  | .some t => .some (zeroVarIds t)
termination_by structural t => t
def zeroVarIdsList : TypeList → TypeList
  | .nil => .nil
  | .cons h t => .cons (zeroVarIds h) (zeroVarIdsList t)
termination_by structural l => l
def zeroVarIdsRel : TypeRelationT → TypeRelationT
  | .mk f args n a => .mk f (zeroVarIdsList args) n a
termination_by structural rel => rel
def zeroVarIdsTRList : TRList → TRList
  | .nil => .nil
  | .cons h t => .cons (zeroVarIdsRel h) (zeroVarIdsTRList t)
termination_by structural l => l
end

/-- Erasing a variable's identity does not change its rendering: the
`TypeVarNode` printer reads only the name hint and the kind. -/
theorem printTypeVarNode_zero (v : TypeVarNode) :
    printTypeVarNode (zeroVarNode v) = printTypeVarNode v := rfl

/-- Erasing identities of a type-parameter list does not change its
rendering. -/
theorem printTypeVarList_map_zero (l : List TypeVarNode) :
    printTypeVarList (l.map zeroVarNode) = printTypeVarList l := by
  unfold printTypeVarList
  rw [List.map_map]
  rfl

mutual
/-- The printer never reads the identity of a lexical or global type
variable: canonicalizing those identities leaves the rendering unchanged. -/
theorem printType_zeroVarIds : (t : TypeT) → printType (zeroVarIds t) = printType t
  | .tensor _ => rfl
  | .typeVar n => by
      simp only [zeroVarIds, printType, printTypeVarNode_zero n]
  | .globalTypeVar n => by
      simp only [zeroVarIds, printType, zeroGlobalVarNode]
  | .typeCall f args => by
      simp only [zeroVarIds, printType,
        printTypeOpt_zeroVarIds f, printTypeListInner_zeroVarIds args]
  | .incomplete _ => rfl
  | .func arg_types ret_type type_params type_constraints => by
      simp only [zeroVarIds, printType,
        printTypeVarList_map_zero type_params,
        printTypeListInner_zeroVarIds arg_types,
        printType_zeroVarIds ret_type,
        printTRListInner_zeroVarIds type_constraints]
  | .tuple fields => by
      simp only [zeroVarIds, printType,
        printTypeListInner_zeroVarIds fields]
  | .refType v => by
      simp only [zeroVarIds, printType, printTypeOpt_zeroVarIds v]
/-- Auxiliary to `printType_zeroVarIds` for possibly-null handles. -/
theorem printTypeOpt_zeroVarIds : (t : TypeOpt) → printTypeOpt (zeroVarIdsOpt t) = printTypeOpt t
  | .null => rfl
  | .some t => by
      simp only [zeroVarIdsOpt, printTypeOpt, printType_zeroVarIds t]
/-- Auxiliary to `printType_zeroVarIds` for argument lists. -/
theorem printTypeListInner_zeroVarIds :
    (l : TypeList) → printTypeListInner (zeroVarIdsList l) = printTypeListInner l
  | .nil => rfl
  | .cons h .nil => by
      simp only [zeroVarIdsList, printTypeListInner, printType_zeroVarIds h]
  | .cons h (.cons h2 t) => by
      have ih := printTypeListInner_zeroVarIds (TypeList.cons h2 t)
      simp only [zeroVarIdsList] at ih ⊢
      simp only [printTypeListInner, printType_zeroVarIds h, ih]
/-- Auxiliary to `printType_zeroVarIds` for relation nodes. -/
theorem printTypeRelation_zeroVarIds :
    (rel : TypeRelationT) → printTypeRelation (zeroVarIdsRel rel) = printTypeRelation rel
  | .mk f args n a => by
      simp only [zeroVarIdsRel, printTypeRelation,
        printTypeListInner_zeroVarIds args]
/-- Auxiliary to `printType_zeroVarIds` for constraint lists. -/
theorem printTRListInner_zeroVarIds :
    (l : TRList) → printTRListInner (zeroVarIdsTRList l) = printTRListInner l
  | .nil => rfl
  | .cons h .nil => by
      simp only [zeroVarIdsTRList, printTRListInner, printTypeRelation_zeroVarIds h]
  | .cons h (.cons h2 t) => by
      have ih := printTRListInner_zeroVarIds (TRList.cons h2 t)
      simp only [zeroVarIdsTRList] at ih ⊢
      simp only [printTRListInner, printTypeRelation_zeroVarIds h, ih]
end

/-- The size accumulation loop is the left fold of structural
multiplication over the remaining dimensions. -/
theorem sizeLoop_eq_foldl (xs : List IndexExpr) (acc : IndexExpr) :
    sizeLoop acc xs = xs.foldl IndexExpr.Mul acc := by
  induction xs generalizing acc with
  | nil => rfl
  | cons d rest ih => simp [sizeLoop, List.foldl, ih]

/-- C1 counterexample: `TypeRelationNode::make` does not fail when
`num_inputs` is out of range.  At `num_inputs = -1 < 0` and at
`num_inputs = 1 > len(args) = 0` it succeeds and a fully formed node is
produced, contradicting the claim that construction fails eagerly with
`MalformedRelation` and no node is produced. -/
theorem C1_out_of_range_produces_node_cex :
    TypeRelationNode.make ⟨"rel"⟩ TypeList.nil (-1) ⟨0⟩
      = TypeRelationT.mk ⟨"rel"⟩ TypeList.nil (-1) ⟨0⟩
    ∧ TypeRelationNode.make ⟨"rel"⟩ TypeList.nil 1 ⟨0⟩
      = TypeRelationT.mk ⟨"rel"⟩ TypeList.nil 1 ⟨0⟩
    ∧ (-1 : Int) < 0
    ∧ (1 : Int) > (TypeList.length TypeList.nil : Int) :=
  ⟨rfl, rfl, by decide, by decide⟩

/-- C1 (amended): for every argument list and every `num_inputs` with
`num_inputs < 0` or `num_inputs > len(args)`, `TypeRelationNode::make`
nevertheless succeeds at construction time: it performs no range
validation and produces the fully formed node storing `num_inputs`
exactly as supplied. -/
theorem C1_out_of_range_still_succeeds (f : TypeRelationFn) (args : TypeList)
    (n : Int) (attrs : Attrs) (h : n < 0 ∨ n > (args.length : Int)) :
    TypeRelationNode.make f args n attrs = TypeRelationT.mk f args n attrs
    ∧ (TypeRelationNode.make f args n attrs).num_inputs = n :=
  ⟨rfl, rfl⟩

/-- C1 witness: the amended statement at a concrete negative input count. -/
theorem C1_out_of_range_still_succeeds_witness :
    TypeRelationNode.make ⟨"broadcast"⟩ TypeList.nil (-2) ⟨7⟩
      = TypeRelationT.mk ⟨"broadcast"⟩ TypeList.nil (-2) ⟨7⟩
    ∧ (TypeRelationNode.make ⟨"broadcast"⟩ TypeList.nil (-2) ⟨7⟩).num_inputs = -2 :=
  C1_out_of_range_still_succeeds ⟨"broadcast"⟩ TypeList.nil (-2) ⟨7⟩ (Or.inl (by decide))

/-- C2: `TensorTypeNode::Size` applied to a tensor type whose shape is the
empty sequence returns the integer literal constant 1 of the 64-bit signed
integer type, whatever the dtype. -/
theorem C2_size_of_empty_shape (t : TensorTypeNode) (h : t.shape = []) :
    t.Size = IndexExpr.IntImm (DataType.Int 64) 1 := by
  cases t with
  | mk s d =>
    have hs : s = [] := h
    subst hs
    rfl

/-- C2 witness: a concrete 0-D tensor type of dtype float32. -/
theorem C2_size_of_empty_shape_witness :
    (TensorTypeNode.make [] (DataType.Float 32)).Size
      = IndexExpr.IntImm (DataType.Int 64) 1 :=
  C2_size_of_empty_shape (TensorTypeNode.make [] (DataType.Float 32)) rfl

/-- C3: for a nonempty shape, `TensorTypeNode::Size` is the left-to-right
fold of structural multiplication starting from the first dimension:
shape `[m, n]` yields `mul(m, n)` (not `mul(n, m)`), shape `[m, n, p]`
yields `mul(mul(m, n), p)`, and in general shape `x :: xs` yields the left
fold of `mul` over `xs` starting at `x`. -/
theorem C3_size_left_fold (m n p x : IndexExpr) (xs : List IndexExpr) (d : DataType) :
    (TensorTypeNode.make [m, n] d).Size = IndexExpr.Mul m n
    ∧ (TensorTypeNode.make [m, n, p] d).Size = IndexExpr.Mul (IndexExpr.Mul m n) p
    ∧ (TensorTypeNode.make (x :: xs) d).Size = xs.foldl IndexExpr.Mul x := by
  refine ⟨rfl, rfl, ?_⟩
  show sizeLoop x xs = xs.foldl IndexExpr.Mul x
  exact sizeLoop_eq_foldl xs x

/-- C4: `TensorTypeNode::Scalar(d)` is the very node `TensorTypeNode::make({}, d)`
(same shape and dtype fields), and its size is the literal 1 of Int(64). -/
theorem C4_scalar_is_empty_tensor (d : DataType) :
    TensorTypeNode.Scalar d = TensorTypeNode.make [] d
    ∧ (TensorTypeNode.Scalar d).shape = []
    ∧ (TensorTypeNode.Scalar d).dtype = d
    ∧ (TensorTypeNode.Scalar d).Size = IndexExpr.IntImm (DataType.Int 64) 1 :=
  ⟨rfl, rfl, rfl, rfl⟩

/-- C5: for `0 ≤ num_inputs ≤ len(args)`, `TypeRelationNode::make` succeeds
and the constructed node stores the resolver, the argument list in the
supplied order, `num_inputs` as supplied, and the attribute bag
unchanged. -/
theorem C5_in_range_preserves_fields (f : TypeRelationFn) (args : TypeList)
    (n : Int) (attrs : Attrs) (h0 : 0 ≤ n) (h1 : n ≤ (args.length : Int)) :
    (TypeRelationNode.make f args n attrs).func = f
    ∧ (TypeRelationNode.make f args n attrs).args = args
    ∧ (TypeRelationNode.make f args n attrs).num_inputs = n
    ∧ (TypeRelationNode.make f args n attrs).attrs = attrs :=
  ⟨rfl, rfl, rfl, rfl⟩

/-- C5 witness: a concrete two-argument relation with `num_inputs = 1`. -/
theorem C5_in_range_preserves_fields_witness :
    (TypeRelationNode.make ⟨"broadcast"⟩
        (TypeList.cons (TypeT.tensor (TensorTypeNode.Scalar (DataType.Int 32)))
          (TypeList.cons (TypeT.incomplete ⟨0, Kind.kType⟩) TypeList.nil))
        1 ⟨3⟩).func = ⟨"broadcast"⟩
    ∧ (TypeRelationNode.make ⟨"broadcast"⟩
        (TypeList.cons (TypeT.tensor (TensorTypeNode.Scalar (DataType.Int 32)))
          (TypeList.cons (TypeT.incomplete ⟨0, Kind.kType⟩) TypeList.nil))
        1 ⟨3⟩).args = TypeList.cons (TypeT.tensor (TensorTypeNode.Scalar (DataType.Int 32)))
          (TypeList.cons (TypeT.incomplete ⟨0, Kind.kType⟩) TypeList.nil)
    ∧ (TypeRelationNode.make ⟨"broadcast"⟩
        (TypeList.cons (TypeT.tensor (TensorTypeNode.Scalar (DataType.Int 32)))
          (TypeList.cons (TypeT.incomplete ⟨0, Kind.kType⟩) TypeList.nil))
        1 ⟨3⟩).num_inputs = 1
    ∧ (TypeRelationNode.make ⟨"broadcast"⟩
        (TypeList.cons (TypeT.tensor (TensorTypeNode.Scalar (DataType.Int 32)))
          (TypeList.cons (TypeT.incomplete ⟨0, Kind.kType⟩) TypeList.nil))
        1 ⟨3⟩).attrs = ⟨3⟩ :=
  C5_in_range_preserves_fields ⟨"broadcast"⟩
    (TypeList.cons (TypeT.tensor (TensorTypeNode.Scalar (DataType.Int 32)))
      (TypeList.cons (TypeT.incomplete ⟨0, Kind.kType⟩) TypeList.nil))
    1 ⟨3⟩ (by decide) (by decide)

/-- C6 counterexample: `RefTypeNode::make` and `TypeCallNode::make` invoked
with a null required child do not fail with a `NullChild` error — each
succeeds and a node storing the null child is produced. -/
theorem C6_null_child_produces_node_cex :
    RefTypeNode.make TypeOpt.null = TypeT.refType TypeOpt.null
    ∧ TypeCallNode.make TypeOpt.null TypeList.nil
      = TypeT.typeCall TypeOpt.null TypeList.nil :=
  ⟨rfl, rfl⟩

/-- C6 (amended): the constructors perform no null check at construction
time: invoked with a missing (null) required child they still succeed and
produce a fully formed node with the null handle stored as supplied. -/
theorem C6_null_child_accepted (args : TypeList) (v : TypeOpt) :
    RefTypeNode.make v = TypeT.refType v
    ∧ RefTypeNode.make TypeOpt.null = TypeT.refType TypeOpt.null
    ∧ TypeCallNode.make TypeOpt.null args = TypeT.typeCall TypeOpt.null args :=
  ⟨rfl, rfl, rfl⟩

/-- C7: two separate calls of `TypeVarNode::make` with the same name and
kind produce two distinct values compared by identity, never by name:
substitution keyed on the identity of one leaves an occurrence of the
other untouched, yet both print identically; likewise two calls of
`GlobalTypeVarNode::make` (printing identically) and of
`IncompleteTypeNode::make` produce distinct values. -/
theorem C7_variables_identity_not_name (s : String) (k : Kind) (a : Nat) (r : TypeT) :
    (TypeVarNode.make s k a).fst ≠ (TypeVarNode.make s k (TypeVarNode.make s k a).snd).fst
    ∧ substVar (TypeVarNode.make s k a).fst.id r
        (TypeT.typeVar (TypeVarNode.make s k (TypeVarNode.make s k a).snd).fst)
      = TypeT.typeVar (TypeVarNode.make s k (TypeVarNode.make s k a).snd).fst
    ∧ substVar (TypeVarNode.make s k (TypeVarNode.make s k a).snd).fst.id r
        (TypeT.typeVar (TypeVarNode.make s k a).fst)
      = TypeT.typeVar (TypeVarNode.make s k a).fst
    ∧ printType (TypeT.typeVar (TypeVarNode.make s k a).fst)
      = printType (TypeT.typeVar (TypeVarNode.make s k (TypeVarNode.make s k a).snd).fst)
    ∧ (GlobalTypeVarNode.make s k a).fst
      ≠ (GlobalTypeVarNode.make s k (GlobalTypeVarNode.make s k a).snd).fst
    ∧ printType (TypeT.globalTypeVar (GlobalTypeVarNode.make s k a).fst)
      = printType (TypeT.globalTypeVar
          (GlobalTypeVarNode.make s k (GlobalTypeVarNode.make s k a).snd).fst)
    ∧ (IncompleteTypeNode.make k a).fst
      ≠ (IncompleteTypeNode.make k (IncompleteTypeNode.make k a).snd).fst := by
  refine ⟨?_, ?_, ?_, rfl, ?_, rfl, ?_⟩
  · intro h
    have hid : a = a + 1 := congrArg TypeVarNode.id h
    omega
  · simp [TypeVarNode.make, substVar]
  · simp [TypeVarNode.make, substVar]
  · intro h
    have hid : a = a + 1 := congrArg GlobalTypeVarNode.id h
    omega
  · intro h
    have hid : a = a + 1 := congrArg IncompleteTypeNode.id h
    omega

/-- C8: the printer renders function types with fields in the order
type-parameters, argument-types, return-type, constraints, and renders
empty type-parameter and constraint lists as empty sequences rather than
omitting them: `makeFuncType([int32], bool, [], [])` prints as
`FuncTypeNode([], [int32], bool, [])` (with the scalar-tensor renderings
of int32 and bool), and a second argument type appears after the first
inside the argument list. -/
theorem C8_func_print_field_order :
    printType (FuncTypeNode.make
        (TypeList.cons (TypeT.tensor (TensorTypeNode.Scalar (DataType.Int 32))) TypeList.nil)
        (TypeT.tensor (TensorTypeNode.Scalar DataType.Bool)) [] TRList.nil)
      = "FuncTypeNode([], [TensorType([], int32)], TensorType([], bool), [])"
    ∧ printType (FuncTypeNode.make
        (TypeList.cons (TypeT.tensor (TensorTypeNode.Scalar (DataType.Int 32)))
          (TypeList.cons (TypeT.tensor (TensorTypeNode.Scalar (DataType.Float 32))) TypeList.nil))
        (TypeT.tensor (TensorTypeNode.Scalar DataType.Bool)) [] TRList.nil)
      = "FuncTypeNode([], [TensorType([], int32), TensorType([], float32)], TensorType([], bool), [])" :=
  ⟨rfl, rfl⟩

/-- C9 counterexample: two incomplete-type placeholders with equal contents
(the node carries only its Kind) but distinct identities print as
different strings, so the printer is not a pure function of node contents
and fixed field order alone. -/
theorem C9_equal_contents_different_print_cex :
    (IncompleteTypeNode.make Kind.kType 0).fst.kind
      = (IncompleteTypeNode.make Kind.kType (IncompleteTypeNode.make Kind.kType 0).snd).fst.kind
    ∧ printType (TypeT.incomplete (IncompleteTypeNode.make Kind.kType 0).fst)
      ≠ printType (TypeT.incomplete
          (IncompleteTypeNode.make Kind.kType (IncompleteTypeNode.make Kind.kType 0).snd).fst) :=
  ⟨rfl, by decide⟩

/-- C9 (amended): printer output is a pure function of node contents and
fixed field order together with the identities of incomplete-type
placeholders: any two type nodes that agree after canonicalizing the
identities of lexical and global type variables print byte-identically
(in particular, re-printing the same immutable node is byte-identical);
only the incomplete-type variant's rendering additionally depends on node
identity. -/
theorem C9_print_pure_up_to_var_identity (t1 t2 : TypeT)
    (h : zeroVarIds t1 = zeroVarIds t2) : printType t1 = printType t2 := by
  rw [← printType_zeroVarIds t1, ← printType_zeroVarIds t2, h]

/-- C9 witness: two type variables of equal contents (same name hint and
kind, distinct identities) print identically. -/
theorem C9_print_pure_up_to_var_identity_witness :
    zeroVarIds (TypeT.typeVar ⟨0, "a", Kind.kType⟩)
      = zeroVarIds (TypeT.typeVar ⟨5, "a", Kind.kType⟩)
    ∧ printType (TypeT.typeVar ⟨0, "a", Kind.kType⟩)
      = printType (TypeT.typeVar ⟨5, "a", Kind.kType⟩) :=
  ⟨rfl, C9_print_pure_up_to_var_identity
    (TypeT.typeVar ⟨0, "a", Kind.kType⟩) (TypeT.typeVar ⟨5, "a", Kind.kType⟩) rfl⟩

/-- C10: the incomplete-type rendering includes the node's identity
alongside its Kind — a freshly allocated placeholder of kind ShapeVar
prints its id after the kind, and two distinct placeholders constructed
with the same Kind print as different strings — while type-variable
rendering depends only on name hint and Kind, so variables of distinct
identity print identically. -/
theorem C10_incomplete_print_shows_identity :
    printType (TypeT.incomplete (IncompleteTypeNode.make Kind.kShapeVar 0).fst)
      = "IncompleteTypeNode(ShapeVar, 0)"
    ∧ printType (TypeT.incomplete (IncompleteTypeNode.make Kind.kShapeVar 0).fst)
      ≠ printType (TypeT.incomplete
          (IncompleteTypeNode.make Kind.kShapeVar ((IncompleteTypeNode.make Kind.kShapeVar 0).snd)).fst)
    ∧ ∀ (i j : Nat) (s : String) (k : Kind),
        printType (TypeT.typeVar ⟨i, s, k⟩) = printType (TypeT.typeVar ⟨j, s, k⟩) :=
  ⟨rfl, by decide, fun _ _ _ _ => rfl⟩
